import Mathlib

/-!
Shallow embedding of src/auth0_user_creator.py.

The script batch-creates users against a management REST API.  Pure string
manipulation (JWT payload decoding, email templating) is embedded directly;
the network is modelled as an oracle of HTTP responses, standard input as a
list of lines, and the output file as an abstract content value (absent,
invalid JSON text, or a parsed JSON value).  Python library semantics
(base64.b64decode, json.loads, str.replace, str.split, int) are embedded
from their documented and observed behaviour.  Modelling restrictions are
noted next to the definitions they concern.
-/

namespace Auth0Script

/-! ## Python string primitives -/

/-- Does the list `s` start with the list `pat`. -/
def listStartsWith : List Char → List Char → Bool
  | _, [] => true
  | [], _ :: _ => false
  | c :: cs, d :: ds => c = d && listStartsWith cs ds

/-- Core scanner for Python `str.replace` (all non-overlapping occurrences,
left to right, pattern nonempty).  Fuel is an upper bound on the number of
scanning steps; `s.length` steps always suffice because every step consumes
at least one character of `s`. -/
def replaceAux (old new : List Char) : Nat → List Char → List Char
  | 0, s => s
  | _ + 1, [] => []
  | fuel + 1, c :: rest =>
    if old ≠ [] ∧ listStartsWith (c :: rest) old then
      new ++ replaceAux old new fuel ((c :: rest).drop old.length)
    else
      c :: replaceAux old new fuel rest

/-- Python `s.replace(old, new)` for a nonempty `old`. -/
def pyReplace (s old new : String) : String :=
  String.mk (replaceAux old.data new.data s.data.length s.data)

/-- Python `pat in s` substring test. -/
def containsSubstrAux (pat : List Char) : List Char → Bool
  | [] => listStartsWith [] pat
  | c :: rest => listStartsWith (c :: rest) pat || containsSubstrAux pat rest

/-- Python `pat in s` substring containment for strings. -/
def containsSubstr (s pat : String) : Bool :=
  containsSubstrAux pat.data s.data

/-- Core scanner for Python `str.split(sep)` with nonempty `sep`. -/
def splitAux (sep : List Char) : Nat → List Char → List Char → List (List Char)
  | 0, s, cur => [cur.reverse ++ s]
  | _ + 1, [], cur => [cur.reverse]
  | fuel + 1, c :: rest, cur =>
    if listStartsWith (c :: rest) sep then
      cur.reverse :: splitAux sep fuel ((c :: rest).drop sep.length) []
    else
      splitAux sep fuel rest (c :: cur)

/-- Python `s.split(sep)` for a nonempty separator. -/
def pySplit (s sep : String) : List String :=
  (splitAux sep.data (s.data.length + 1) s.data []).map String.mk

/-- Python `int(s)`: optional surrounding whitespace, optional sign, then a
nonempty digit run.  Underscore digit separators are not modelled; no claim
depends on the interactive role prompt that uses this. -/
def pyParseInt (s : String) : Option Int :=
  let isWs : Char → Bool := fun c => c = ' ' || c = '\t' || c = '\n' || c = '\r'
  let trimmed := (s.data.dropWhile isWs).reverse.dropWhile isWs |>.reverse
  let core : List Char → Option (List Char) := fun cs =>
    match cs with
    | '-' :: ds => if ds ≠ [] then some ('-' :: ds) else none
    | '+' :: ds => if ds ≠ [] then some ds else none
    | ds => if ds ≠ [] then some ds else none
  match core trimmed with
  | none => none
  | some cs =>
    let digits := match cs with
      | '-' :: ds => ds
      | ds => ds
    if digits.all (fun c => '0' ≤ c ∧ c ≤ '9') then
      let mag : Nat := digits.foldl (fun a c => a * 10 + (c.toNat - 48)) 0
      some (match cs with
        | '-' :: _ => -(mag : Int)
        | _ => (mag : Int))
    else none

/-! ## base64 (Python base64.b64decode, validate=False) -/

/-- Value of a character in the standard base64 alphabet. -/
def b64Val (c : Char) : Option Nat :=
  if 'A' ≤ c ∧ c ≤ 'Z' then some (c.toNat - 65)
  else if 'a' ≤ c ∧ c ≤ 'z' then some (c.toNat - 97 + 26)
  else if '0' ≤ c ∧ c ≤ '9' then some (c.toNat - 48 + 52)
  else if c = '+' then some 62
  else if c = '/' then some 63
  else none

/-- State machine of CPython binascii.a2b_base64 in non-strict mode:
characters outside the alphabet are skipped, bytes are emitted eagerly,
a padding character completes the input once a quad holds at least two data
characters and enough pads, and a quad left incomplete at the end is an
error (a distinguished message when the data-character count is 1 more than
a multiple of 4, observed behaviour of CPython). -/
def b64Aux : List Char → Nat → Nat → Nat → Nat → List Nat → Except String (List Nat)
  | [], quadPos, _, _, cnt, acc =>
    if quadPos = 0 then .ok acc.reverse
    else if quadPos = 1 then
      .error ("Invalid base64-encoded string: number of data characters (" ++
        toString cnt ++ ") cannot be 1 more than a multiple of 4")
    else .error "Incorrect padding"
  | c :: rest, quadPos, pads, leftchar, cnt, acc =>
    if c = '=' then
      if 2 ≤ quadPos ∧ 4 ≤ quadPos + (pads + 1) then .ok acc.reverse
      else b64Aux rest quadPos (pads + 1) leftchar cnt acc
    else
      match b64Val c with
      | none => b64Aux rest quadPos pads leftchar cnt acc
      | some v =>
        match quadPos with
        | 0 => b64Aux rest 1 0 v (cnt + 1) acc
        | 1 => b64Aux rest 2 0 (v % 16) (cnt + 1) ((leftchar * 4 + v / 16) :: acc)
        | 2 => b64Aux rest 3 0 (v % 4) (cnt + 1) ((leftchar * 16 + v / 4) :: acc)
        | _ => b64Aux rest 0 0 0 (cnt + 1) ((leftchar * 64 + v) :: acc)

/-- Python `base64.b64decode(s)` on a str argument: the argument must be
ASCII, then the binascii state machine runs over it. -/
def pyB64decode (s : String) : Except String (List Nat) :=
  if s.data.all (fun c => c.toNat < 128) then
    b64Aux s.data 0 0 0 0 []
  else
    .error "string argument should contain only ASCII characters"

/-! ## UTF-8 decoding (Python bytes.decode, strict) -/

/-- Is a byte a UTF-8 continuation byte. -/
def utf8Cont (b : Nat) : Bool := 128 ≤ b ∧ b ≤ 191

/-- Strict UTF-8 decoding of a byte list: rejects overlong forms,
surrogates and out-of-range sequences, as Python str.decode does. -/
def utf8Decode : List Nat → Option (List Char)
  | [] => some []
  | b :: rest =>
    if b < 128 then
      match utf8Decode rest with
      | some cs => some (Char.ofNat b :: cs)
      | none => none
    else if 194 ≤ b ∧ b ≤ 223 then
      match rest with
      | b1 :: rest2 =>
        if utf8Cont b1 then
          match utf8Decode rest2 with
          | some cs => some (Char.ofNat ((b - 192) * 64 + (b1 - 128)) :: cs)
          | none => none
        else none
      | [] => none
    else if 224 ≤ b ∧ b ≤ 239 then
      match rest with
      | b1 :: b2 :: rest2 =>
        let lo1 := if b = 224 then 160 else 128
        let hi1 := if b = 237 then 159 else 191
        if (lo1 ≤ b1 ∧ b1 ≤ hi1) ∧ utf8Cont b2 then
          match utf8Decode rest2 with
          | some cs =>
            some (Char.ofNat ((b - 224) * 4096 + (b1 - 128) * 64 + (b2 - 128)) :: cs)
          | none => none
        else none
      | _ => none
    else if 240 ≤ b ∧ b ≤ 244 then
      match rest with
      | b1 :: b2 :: b3 :: rest2 =>
        let lo1 := if b = 240 then 144 else 128
        let hi1 := if b = 244 then 143 else 191
        if (lo1 ≤ b1 ∧ b1 ≤ hi1) ∧ utf8Cont b2 ∧ utf8Cont b3 then
          match utf8Decode rest2 with
          | some cs =>
            some (Char.ofNat
              ((b - 240) * 262144 + (b1 - 128) * 4096 + (b2 - 128) * 64 + (b3 - 128)) :: cs)
          | none => none
        else none
      | _ => none
    else none

/-! ## JSON values and json.loads -/

/-- JSON values as Python json.loads produces them.  Numbers keep their
source text: no claim distinguishes numeric values, and Python floats are
out of scope of the embedding. -/
inductive Json where
  | null
  | bool (b : Bool)
  | num (raw : String)
  | str (s : String)
  | arr (elems : List Json)
  | obj (members : List (String × Json))
deriving Repr

/-- Field lookup in a JSON object; later duplicate keys override earlier
ones, matching the Python dict that json.loads builds.  Returns none on
non-objects. -/
def Json.getField (j : Json) (key : String) : Option Json :=
  match j with
  | .obj ms => ms.foldl (fun acc kv => if kv.fst = key then some kv.snd else acc) none
  | _ => none

/-- The list behind a JSON array, if the value is one (Python isinstance
list check). -/
def Json.asArr : Json → Option (List Json) :=
  fun j => match j with
  | .arr xs => some xs
  | _ => none

/-- JSON whitespace characters. -/
def jsonWs (c : Char) : Bool := c = ' ' || c = '\t' || c = '\n' || c = '\r'

/-- Drop leading JSON whitespace. -/
def skipWs (cs : List Char) : List Char := cs.dropWhile jsonWs

/-- Hexadecimal digit value. -/
def hexVal (c : Char) : Option Nat :=
  if '0' ≤ c ∧ c ≤ '9' then some (c.toNat - 48)
  else if 'a' ≤ c ∧ c ≤ 'f' then some (c.toNat - 97 + 10)
  else if 'A' ≤ c ∧ c ≤ 'F' then some (c.toNat - 65 + 10)
  else none

/-- JSON string literal body scanner (after the opening quote).  Escape
sequences follow the JSON grammar; surrogate pairs in \u escapes are
combined.  Lone surrogates, which Python strings can carry but Lean
characters cannot, make the model reject the input; no token in any claim
contains one. -/
def parseStrAux : Nat → List Char → List Char → Option (String × List Char)
  | 0, _, _ => none
  | fuel + 1, acc, cs =>
    match cs with
    | [] => none
    | '"' :: rest => some (String.mk acc.reverse, rest)
    | '\\' :: e :: rest =>
      match e with
      | '"' => parseStrAux fuel ('"' :: acc) rest
      | '\\' => parseStrAux fuel ('\\' :: acc) rest
      | '/' => parseStrAux fuel ('/' :: acc) rest
      | 'b' => parseStrAux fuel ('\x08' :: acc) rest
      | 'f' => parseStrAux fuel ('\x0c' :: acc) rest
      | 'n' => parseStrAux fuel ('\n' :: acc) rest
      | 'r' => parseStrAux fuel ('\r' :: acc) rest
      | 't' => parseStrAux fuel ('\t' :: acc) rest
      | 'u' =>
        match rest with
        | h1 :: h2 :: h3 :: h4 :: rest2 =>
          match hexVal h1, hexVal h2, hexVal h3, hexVal h4 with
          | some v1, some v2, some v3, some v4 =>
            let code := v1 * 4096 + v2 * 256 + v3 * 16 + v4
            if 55296 ≤ code ∧ code ≤ 56319 then
              match rest2 with
              | '\\' :: 'u' :: k1 :: k2 :: k3 :: k4 :: rest3 =>
                match hexVal k1, hexVal k2, hexVal k3, hexVal k4 with
                | some w1, some w2, some w3, some w4 =>
                  let code2 := w1 * 4096 + w2 * 256 + w3 * 16 + w4
                  if 56320 ≤ code2 ∧ code2 ≤ 57343 then
                    parseStrAux fuel
                      (Char.ofNat (65536 + (code - 55296) * 1024 + (code2 - 56320)) :: acc)
                      rest3
                  else none
                | _, _, _, _ => none
              | _ => none
            else if 56320 ≤ code ∧ code ≤ 57343 then none
            else parseStrAux fuel (Char.ofNat code :: acc) rest2
          | _, _, _, _ => none
        | _ => none
      | _ => none
    | c :: rest =>
      if c.toNat < 32 then none else parseStrAux fuel (c :: acc) rest

/-- Scanner for a JSON number literal: returns the raw text and the rest.
Grammar of RFC 8259 as json.loads enforces it (no leading zeros, digits
required around the point and after an exponent marker). -/
def parseNum (cs : List Char) : Option (String × List Char) :=
  let isDigit : Char → Bool := fun c => '0' ≤ c ∧ c ≤ '9'
  let takeDigits : List Char → List Char × List Char := fun l =>
    (l.takeWhile isDigit, l.dropWhile isDigit)
  let (sign, cs1) := match cs with
    | '-' :: rest => (['-'], rest)
    | rest => (([] : List Char), rest)
  match cs1 with
  | [] => none
  | c :: _ =>
    if ¬ isDigit c then none
    else
      let (intPart, cs2) :=
        match cs1 with
        | '0' :: rest => (['0'], rest)
        | l => takeDigits l
      if intPart = [] then none
      else
        let (fracPart, cs3) :=
          match cs2 with
          | '.' :: rest =>
            let (ds, r) := takeDigits rest
            if ds = [] then (([] : List Char), cs2) else ('.' :: ds, r)
          | _ => ([], cs2)
        if cs3 ≠ cs2 ∨ fracPart = [] then
          let (expPart, cs4) :=
            match cs3 with
            | 'e' :: rest | 'E' :: rest =>
              let (sg, r0) := match rest with
                | '+' :: r => (['+'], r)
                | '-' :: r => (['-'], r)
                | r => (([] : List Char), r)
              let (ds, r) := takeDigits r0
              if ds = [] then (([] : List Char), cs3)
              else ((cs3.take 1) ++ sg ++ ds, r)
            | _ => ([], cs3)
          some (String.mk (sign ++ intPart ++ fracPart ++ expPart), cs4)
        else none

/-- Mode of the recursive-descent JSON scanner: a single value, the element
list of an array, or the member list of an object. -/
inductive PMode where
  | val
  | arrElems (first : Bool) (acc : List Json)
  | objMembers (first : Bool) (acc : List (String × Json))

/-- Recursive-descent scanner behind json.loads.  Fuel bounds the recursion
depth; four steps per input character always suffice. -/
def parseJ : Nat → PMode → List Char → Option (Json × List Char)
  | 0, _, _ => none
  | fuel + 1, .val, cs =>
    match skipWs cs with
    | [] => none
    | c :: rest =>
      if c = '\x7b' then parseJ fuel (.objMembers true []) rest
      else if c = '[' then parseJ fuel (.arrElems true []) rest
      else if c = '"' then
        match parseStrAux (rest.length + 1) [] rest with
        | some (s, r) => some (.str s, r)
        | none => none
      else if c = 't' then
        match rest with
        | 'r' :: 'u' :: 'e' :: r => some (.bool true, r)
        | _ => none
      else if c = 'f' then
        match rest with
        | 'a' :: 'l' :: 's' :: 'e' :: r => some (.bool false, r)
        | _ => none
      else if c = 'n' then
        match rest with
        | 'u' :: 'l' :: 'l' :: r => some (.null, r)
        | _ => none
      else
        match parseNum (c :: rest) with
        | some (raw, r) => some (.num raw, r)
        | none => none
  | fuel + 1, .arrElems first acc, cs =>
    match skipWs cs with
    | [] => none
    | c :: rest =>
      if c = ']' ∧ first then some (.arr [], rest)
      else
        let cs2 := if first then c :: rest else
          if c = ',' then rest else []
        if ¬ first ∧ c = ']' then some (.arr acc.reverse, rest)
        else if cs2 = [] then none
        else
          match parseJ fuel .val cs2 with
          | some (v, r) => parseJ fuel (.arrElems false (v :: acc)) r
          | none => none
  | fuel + 1, .objMembers first acc, cs =>
    match skipWs cs with
    | [] => none
    | c :: rest =>
      if c = '\x7d' ∧ first then some (.obj [], rest)
      else if ¬ first ∧ c = '\x7d' then some (.obj acc.reverse, rest)
      else
        let cs2 := if first then c :: rest else
          if c = ',' then skipWs rest else []
        match cs2 with
        | '"' :: krest =>
          match parseStrAux (krest.length + 1) [] krest with
          | some (k, r1) =>
            match skipWs r1 with
            | ':' :: r2 =>
              match parseJ fuel .val r2 with
              | some (v, r3) => parseJ fuel (.objMembers false ((k, v) :: acc)) r3
              | none => none
            | _ => none
          | none => none
        | _ => none

/-- Python `json.loads(s)`: parse one value with surrounding whitespace
allowed and the whole input consumed. -/
def jsonParse (s : String) : Option Json :=
  match parseJ (4 * s.data.length + 16) .val s.data with
  | some (v, rest) => if skipWs rest = [] then some v else none
  | none => none

/-! ## Token Decoder (decode_jwt_payload, extract_api_url_from_token)

Both Python functions print an error and call sys.exit(1) on failure; the
embedding returns the message in an Except error, which main turns into a
nonzero exit code.  Error message text is representative where Python would
raise a library exception whose str() the script interpolates. -/

/-- Embedding of decode_jwt_payload: split on dots, demand three segments,
pad the middle segment with = to a multiple of four, base64-decode it with
the standard alphabet (exactly as the source does), decode UTF-8, parse
JSON. -/
def decode_jwt_payload (token : String) : Except String Json :=
  let parts := pySplit token "."
  if parts.length ≠ 3 then .error "Error: Invalid JWT token format"
  else
    let payload := parts.getD 1 ""
    let padded := payload ++ String.mk (List.replicate ((4 - payload.length % 4) % 4) '=')
    match pyB64decode padded with
    | .error e => .error ("Error decoding JWT payload: " ++ e)
    | .ok bytes =>
      match utf8Decode bytes with
      | none =>
        .error ("Error decoding JWT payload: " ++
          "invalid utf-8 in decoded bytes")
      | some chars =>
        match jsonParse (String.mk chars) with
        | none =>
          .error ("Error decoding JWT payload: " ++
            "decoded text is not valid JSON")
        | some j => .ok j

/-- Embedding of extract_api_url_from_token: decode the payload, demand an
aud member containing /api/v2/, return the aud string verbatim.  For
payloads that are not JSON objects, Python membership and subscripting
either report the missing claim or raise an uncaught TypeError; both
terminate the run with a nonzero status and are embedded as errors. -/
def extract_api_url_from_token (token : String) : Except String String :=
  match decode_jwt_payload token with
  | .error e => .error e
  | .ok payload =>
    match payload with
    | .obj ms =>
      match Json.getField (.obj ms) "aud" with
      | none => .error "Error: JWT token missing \x27aud\x27 claim"
      | some audJson =>
        match audJson with
        | .str aud =>
          if containsSubstr aud "/api/v2/" then .ok aud
          else .error ("Error: aud claim does not contain \x27/api/v2/\x27: " ++ aud)
        | _ => .error "TypeError: argument of type is not iterable"
    | .arr xs =>
      if xs.any (fun x => match x with | .str s => s = "aud" | _ => false) then
        .error "TypeError: list indices must be integers or slices, not str"
      else .error "Error: JWT token missing \x27aud\x27 claim"
    | .str s =>
      if containsSubstr s "aud" then
        .error "TypeError: string indices must be integers"
      else .error "Error: JWT token missing \x27aud\x27 claim"
    | _ => .error "TypeError: argument of type is not iterable"

/-! ## HTTP model -/

/-- An HTTP response as the script consumes it: status code, raw text for
error messages, and the body parsed as JSON (responses whose bodies the
script never parses need no meaningful json field). -/
structure HttpResp where
  status : Nat
  text : String
  json : Json

/-- One outbound request of the script.  The script issues no other kind of
request; in particular nothing is ever deleted. -/
inductive Call where
  | getRoles (url : String)
  | postUsers (url : String) (payload : Json)
  | postRoles (url : String) (payload : Json)

/-- Responses the network would give for one user's create and assign
steps. -/
structure UserNet where
  createResp : HttpResp
  roleResp : HttpResp

/-- The whole network oracle for a run: the roles listing response and the
per-iteration user responses. -/
structure MainNet where
  rolesResp : HttpResp
  user : Nat → UserNet

/-! ## User Provisioner (create_user) -/

/-- Result dictionary of create_user.  Each of the four dict shapes the
source builds sets exactly the fields it mentions; absent keys are none. -/
structure ProvisionResult where
  success : Bool
  user : Option Json := none
  error : Option String := none
  user_created : Option Json := none
  status_code : Option Nat := none
  role_assigned : Option Bool := none
  debug_mode : Option Bool := none

/-- Rebuild the Python dict of a ProvisionResult, keys in the insertion
order of the source for every shape the source constructs. -/
def ProvisionResult.toJson (r : ProvisionResult) : Json :=
  Json.obj
    ([("success", Json.bool r.success)]
      ++ (match r.error with | some e => [("error", Json.str e)] | none => [])
      ++ (match r.user with | some u => [("user", u)] | none => [])
      ++ (match r.user_created with | some u => [("user_created", u)] | none => [])
      ++ (match r.status_code with
          | some n => [("status_code", Json.num (toString n))] | none => [])
      ++ (match r.role_assigned with
          | some b => [("role_assigned", Json.bool b)] | none => [])
      ++ (match r.debug_mode with
          | some b => [("debug_mode", Json.bool b)] | none => []))

/-- Outcome of one create_user invocation: either a result dict or an
uncaught exception (which main's try block converts into flush and exit),
together with the network calls the invocation issued. -/
structure CUOut where
  res : Except String ProvisionResult
  calls : List Call

/-- Payload of the user-creation POST. -/
def userPayload (email : String) : Json :=
  Json.obj
    [("email", .str email),
     ("connection", .str "Username-Password-Authentication"),
     ("password", .str "Temp1234!"),
     ("email_verified", .bool true)]

/-- Payload of the role-assignment POST. -/
def rolePayload (role_id : String) : Json :=
  Json.obj [("roles", Json.arr [Json.str role_id])]

/-- Embedding of create_user.  The debug branch touches no network and
synthesizes the mock response of the source; the live branch consults the
oracle for the create POST and, on a 201, for the role POST.  A create
response body without a string user_id key is embedded as an exception
(Python raises KeyError or TypeError for a missing key or non-dict body;
non-string user_id values, which the script would interpolate into the URL,
are not modelled and never arise in any claim). -/
def create_user (auth0_token email role_id api_url : String) (debug : Bool)
    (net : UserNet) : CUOut :=
  let _ := auth0_token
  let user_url := api_url ++ "users"
  if debug then
    let mock_user_id := "auth0|debug-" ++ pyReplace email "@" "-at-"
    let mock_response := Json.obj
      [("user_id", .str mock_user_id),
       ("email", .str email),
       ("email_verified", .bool true),
       ("created_at", .str "2023-01-01T00:00:00.000Z"),
       ("updated_at", .str "2023-01-01T00:00:00.000Z"),
       ("identities", Json.arr
         [Json.obj
           [("connection", .str "Username-Password-Authentication"),
            ("user_id", .str ((pySplit mock_user_id "|").getD 1 "")),
            ("provider", .str "auth0"),
            ("isSocial", .bool false)]])]
    { res := .ok { success := true, user := some mock_response,
                   role_assigned := some true, debug_mode := some true },
      calls := [] }
  else
    let user_response := net.createResp
    if user_response.status ≠ 201 then
      { res := .ok { success := false,
                     error := some ("Failed to create user: " ++ user_response.text),
                     status_code := some user_response.status },
        calls := [Call.postUsers user_url (userPayload email)] }
    else
      match user_response.json.getField "user_id" with
      | some (.str user_id) =>
        let role_url := api_url ++ "users/" ++ user_id ++ "/roles"
        let role_response := net.roleResp
        if role_response.status ≠ 204 then
          { res := .ok { success := false,
                         error := some ("Failed to assign role: " ++ role_response.text),
                         user_created := some user_response.json,
                         status_code := some role_response.status },
            calls := [Call.postUsers user_url (userPayload email),
                      Call.postRoles role_url (rolePayload role_id)] }
        else
          { res := .ok { success := true, user := some user_response.json,
                         role_assigned := some true },
            calls := [Call.postUsers user_url (userPayload email),
                      Call.postRoles role_url (rolePayload role_id)] }
      | _ =>
        { res := .error "KeyError: user_id",
          calls := [Call.postUsers user_url (userPayload email)] }

/-! ## Role Resolver (get_roles, prompt_role_selection) -/

/-- The fixture roles the debug branch of get_roles returns. -/
def mockRoles : List Json :=
  [Json.obj [("id", .str "rol_1"), ("name", .str "Admin"),
             ("description", .str "Administrator role")],
   Json.obj [("id", .str "rol_2"), ("name", .str "User"),
             ("description", .str "Regular user role")],
   Json.obj [("id", .str "rol_3"), ("name", .str "Editor"),
             ("description", .str "Content editor role")]]

/-- Embedding of get_roles: the debug branch returns the fixture without
touching the network; the live branch issues the GET and exits on a
non-200 status. -/
def get_roles (auth0_token api_url : String) (debug : Bool) (resp : HttpResp) :
    Except Unit Json × List Call :=
  let _ := auth0_token
  if debug then (.ok (Json.arr mockRoles), [])
  else if resp.status ≠ 200 then (.error (), [Call.getRoles (api_url ++ "roles")])
  else (.ok resp.json, [Call.getRoles (api_url ++ "roles")])

/-- Selection loop of prompt_role_selection over the remaining stdin lines:
non-integers and out-of-range indices reprompt; exhausted input models the
EOFError an exhausted stdin raises, and a selected role without a string id
the KeyError of the final lookup; both crash the run. -/
def promptLoop (roles : List Json) : List String → Option String
  | [] => none
  | s :: rest =>
    match pyParseInt s with
    | none => promptLoop roles rest
    | some n =>
      let idx := n - 1
      if 0 ≤ idx ∧ idx < (roles.length : Int) then
        match roles.getD idx.toNat Json.null |>.getField "id" with
        | some (.str rid) => some rid
        | _ => none
      else promptLoop roles rest

/-- Embedding of prompt_role_selection: the listing printed before the loop
subscripts every role with name and id, so a role lacking either crashes
before any input is read. -/
def prompt_role_selection (roles : List Json) (inputs : List String) : Option String :=
  if roles.all (fun r =>
      (r.getField "name").isSome && (r.getField "id").isSome) then
    promptLoop roles inputs
  else none

/-! ## Result Store (save_results) -/

/-- Content of the output file: absent, present with text that is not
valid JSON (the stored string stands for that text), or present with a
parsed JSON value.  The script always writes json.dump output, which reads
back as the dumped value, so file contents are modelled at the JSON level. -/
def FileContent : Type := Option (Except String Json)

/-- Outcome of save_results: the element count it returns, whether an
overwrite warning was printed, and the file content after the write. -/
structure SaveOut where
  total : Nat
  warned : Bool
  file : FileContent

/-- Embedding of save_results: recover an existing array if the file holds
one, warn and start from an empty list when the file holds invalid JSON or
a non-array, concatenate, rewrite the whole array, and return the combined
length.  Filesystem read and write errors are out of scope of the
embedding. -/
def save_results (results : List Json) (file : FileContent) : SaveOut :=
  let existingWarn : List Json × Bool :=
    match file with
    | none => ([], false)
    | some (.error _) => ([], true)
    | some (.ok j) =>
      match j with
      | .arr xs => (xs, false)
      | _ => ([], true)
  let combined := existingWarn.fst ++ results
  { total := combined.length, warned := existingWarn.snd,
    file := some (.ok (Json.arr combined)) }

/-! ## Batch Runner (main) -/

/-- Parsed command-line arguments of the run.  The output path is implicit:
the file the run touches is passed to runMain directly. -/
structure Args where
  token : String
  email : String
  start : Int
  stop : Int
  role_id : Option String
  debug : Bool

/-- The email placeholder of the template. -/
def placeholder : String := "\x7b$\x7d"

/-- The email list the loop iterates: Python range(start, stop + 1) in
ascending order, the placeholder of the template replaced by the decimal
rendering of each number. -/
def emailsFor (template : String) (start stop : Int) : List String :=
  ((List.range (stop + 1 - start).toNat).map (fun (i : Nat) => start + (i : Int))).map
    (fun n => pyReplace template placeholder (toString n))

/-- State of the provisioning loop when it stops: results accumulated (only
successes are appended), the emails for which create_user was invoked, the
network calls issued, and whether the loop stopped on a failure or an
exception rather than by exhausting the range. -/
structure LoopOut where
  results : List ProvisionResult
  attempts : List String
  calls : List Call
  failed : Bool

/-- Embedding of the for loop of main: strictly sequential; a success is
appended (after the progress print subscripts user and user_id, whose
absence would raise into the surrounding try); any failure or exception
stops the loop at once. -/
def runLoop (step : Nat → String → CUOut) : List String → Nat → LoopOut
  | [], _ => { results := [], attempts := [], calls := [], failed := false }
  | e :: rest, i =>
    let out := step i e
    match out.res with
    | .error _ => { results := [], attempts := [e], calls := out.calls, failed := true }
    | .ok r =>
      if r.success then
        match r.user with
        | some u =>
          match u.getField "user_id" with
          | some _ =>
            let tail := runLoop step rest (i + 1)
            { results := r :: tail.results, attempts := e :: tail.attempts,
              calls := out.calls ++ tail.calls, failed := tail.failed }
          | none => { results := [], attempts := [e], calls := out.calls, failed := true }
        | none => { results := [], attempts := [e], calls := out.calls, failed := true }
      else { results := [], attempts := [e], calls := out.calls, failed := true }

/-- Observable outcome of a run: process exit code, the fatal pre-flight
message if one was printed, network calls in order, emails attempted,
results accumulated, the argument of each save_results invocation, and the
final output file content. -/
structure MainOut where
  exitCode : Nat
  errMsg : Option String
  calls : List Call
  attempts : List String
  results : List ProvisionResult
  saves : List (List Json)
  file : FileContent

/-- A run that stops during pre-flight: nothing attempted, no network call,
no save, file untouched. -/
def mainExitEarly (code : Nat) (msg : Option String) (file0 : FileContent) : MainOut :=
  { exitCode := code, errMsg := msg, calls := [], attempts := [],
    results := [], saves := [], file := file0 }

/-- Role resolution of main: a nonempty --role-id value is used as given
(Python truthiness, so an empty string triggers the fetch too); otherwise
get_roles and the interactive prompt run, any failure of which ends the
run. -/
def resolveRole (args : Args) (api_url : String) (net : MainNet)
    (inputs : List String) : Except Unit String × List Call :=
  let rid0 := args.role_id.getD ""
  if rid0 ≠ "" then (.ok rid0, [])
  else
    match get_roles args.token api_url args.debug net.rolesResp with
    | (.error _, cs) => (.error (), cs)
    | (.ok rolesJson, cs) =>
      match rolesJson.asArr with
      | none => (.error (), cs)
      | some roles =>
        match prompt_role_selection roles inputs with
        | some rid => (.ok rid, cs)
        | none => (.error (), cs)

/-- End of the run after the loop: on failure flush the accumulated results
if any and exit 1; on completion flush if any and exit 0.  Python falsiness
of an empty list decides whether save_results runs at all. -/
def finishMain (lo : LoopOut) (preCalls : List Call) (file0 : FileContent) : MainOut :=
  if lo.failed then
    if lo.results.isEmpty then
      { exitCode := 1, errMsg := none, calls := preCalls ++ lo.calls,
        attempts := lo.attempts, results := lo.results, saves := [], file := file0 }
    else
      let so := save_results (lo.results.map ProvisionResult.toJson) file0
      { exitCode := 1, errMsg := none, calls := preCalls ++ lo.calls,
        attempts := lo.attempts, results := lo.results,
        saves := [lo.results.map ProvisionResult.toJson], file := so.file }
  else
    if lo.results.isEmpty then
      { exitCode := 0, errMsg := none, calls := preCalls ++ lo.calls,
        attempts := lo.attempts, results := lo.results, saves := [], file := file0 }
    else
      let so := save_results (lo.results.map ProvisionResult.toJson) file0
      { exitCode := 0, errMsg := none, calls := preCalls ++ lo.calls,
        attempts := lo.attempts, results := lo.results,
        saves := [lo.results.map ProvisionResult.toJson], file := so.file }

/-- Embedding of main after argument parsing, in source order: extract the
API URL from the token, validate template and range, resolve the role, run
the loop, flush and exit. -/
def runMain (args : Args) (net : MainNet) (inputs : List String)
    (file0 : FileContent) : MainOut :=
  match extract_api_url_from_token args.token with
  | .error msg => mainExitEarly 1 (some msg) file0
  | .ok api_url =>
    if containsSubstr args.email placeholder = false then
      mainExitEarly 1
        (some "Error: Email template must contain \x7b$\x7d placeholder") file0
    else if args.start > args.stop then
      mainExitEarly 1
        (some "Error: Start number must be less than or equal to end number") file0
    else
      match resolveRole args api_url net inputs with
      | (.error _, preCalls) =>
        { exitCode := 1, errMsg := none, calls := preCalls, attempts := [],
          results := [], saves := [], file := file0 }
      | (.ok role_id, preCalls) =>
        let emails := emailsFor args.email args.start args.stop
        let lo := runLoop
          (fun i e => create_user args.token e role_id api_url args.debug (net.user i))
          emails 0
        finishMain lo preCalls file0

/-! ## Concrete fixtures for closed statements -/

/-- A response for oracle slots a scenario never consults. -/
def nullResp : HttpResp := { status := 0, text := "", json := Json.null }

/-- A network oracle a scenario never consults. -/
def idleNet : MainNet :=
  { rolesResp := nullResp, user := fun _ => { createResp := nullResp, roleResp := nullResp } }

/-- A well-formed token whose payload is a JSON object with an aud string
containing the API path marker and a trailing slash. -/
def goodTok : String := "h.eyJhdWQiOiJodHRwczovL3QvYXBpL3YyLyJ9.s"

/-- Responses provisioning one user successfully: a 201 create whose body
carries the given user id, then a 204 role assignment. -/
def okUserNet (uid : String) : UserNet :=
  { createResp := { status := 201, text := "", json := Json.obj [("user_id", Json.str uid)] },
    roleResp := { status := 204, text := "", json := Json.null } }

/-- Responses failing the create step with a 409. -/
def conflictUserNet : UserNet :=
  { createResp := { status := 409, text := "conflict", json := Json.null },
    roleResp := nullResp }

/-- A network where the first user provisions fine and every later create
is refused. -/
def twoUserNet : MainNet :=
  { rolesResp := nullResp,
    user := fun i => if i = 0 then okUserNet "u0" else conflictUserNet }

/-- A network refusing every create. -/
def allFailNet : MainNet :=
  { rolesResp := nullResp, user := fun _ => conflictUserNet }

/-- The result dict okUserNet produces. -/
def okResult : ProvisionResult :=
  { success := true, user := some (Json.obj [("user_id", Json.str "u0")]),
    role_assigned := some true }

/-- A provisioning step that always succeeds without touching the
network. -/
def demoStep : Nat → String → CUOut := fun _ _ =>
  { res := .ok { success := true,
                 user := some (Json.obj [("user_id", Json.str "x")]),
                 role_assigned := some true },
    calls := [] }

/-! ## Predicates used by the statements -/

/-- The invocation produced exactly the result `r`, a success that the loop
appends and moves past (its user dict carries a user_id for the progress
print). -/
def stepOkWith (out : CUOut) (r : ProvisionResult) : Prop :=
  out.res = .ok r ∧ r.success = true ∧
    ∃ u, r.user = some u ∧ ∃ v, u.getField "user_id" = some v

/-- The invocation lets the loop advance to the next email. -/
def stepOk (out : CUOut) : Prop := ∃ r, stepOkWith out r

/-- The aud claim value contains the required API path marker (Python
membership on a non-string raises, which never yields a URL). -/
def audHasMarker : Json → Bool
  | .str a => containsSubstr a "/api/v2/"
  | _ => false

/-- The token fails one of the pre-flight conditions: wrong segment count,
middle segment that does not decode to JSON, no audience member, or an
audience without the API path marker. -/
def tokenBad (token : String) : Prop :=
  (pySplit token ".").length ≠ 3 ∨
  (∃ msg, decode_jwt_payload token = .error msg) ∨
  (∃ j, decode_jwt_payload token = .ok j ∧ j.getField "aud" = none) ∨
  (∃ j a, decode_jwt_payload token = .ok j ∧ j.getField "aud" = some a ∧
    audHasMarker a = false)

/-- The array save_results recovers from the existing file: an empty one
for an absent file, the stored elements for a valid JSON array, nothing
otherwise. -/
def fileArr : FileContent → Option (List Json) :=
  fun f => match f with
  | none => some []
  | some (.ok (Json.arr xs)) => some xs
  | _ => none

/-- The file exists but holds either invalid JSON text or a valid JSON
value that is not an array. -/
def badExisting (f : FileContent) : Prop :=
  (∃ s, f = some (.error s)) ∨ (∃ j, f = some (.ok j) ∧ j.asArr = none)

/-! ## Helper lemmas -/

/-- A successful step lets the loop recurse, accumulating the result. -/
theorem runLoop_cons_succ (step : Nat → String → CUOut) (e : String)
    (rest : List String) (i : Nat) (r : ProvisionResult) (u v : Json)
    (h1 : (step i e).res = .ok r) (h2 : r.success = true)
    (h3 : r.user = some u) (h4 : u.getField "user_id" = some v) :
    runLoop step (e :: rest) i =
      { results := r :: (runLoop step rest (i + 1)).results,
        attempts := e :: (runLoop step rest (i + 1)).attempts,
        calls := (step i e).calls ++ (runLoop step rest (i + 1)).calls,
        failed := (runLoop step rest (i + 1)).failed } := by
  simp only [runLoop, h1, h2, h3, h4, if_true]

/-- A step that is not a clean success stops the loop at once. -/
theorem runLoop_cons_fail (step : Nat → String → CUOut) (e : String)
    (rest : List String) (i : Nat) (h : ¬ stepOk (step i e)) :
    runLoop step (e :: rest) i =
      { results := [], attempts := [e], calls := (step i e).calls, failed := true } := by
  simp only [runLoop]
  rcases hres : (step i e).res with msg | r
  · rfl
  · by_cases hs : r.success
    · rcases hu : r.user with _ | u
      · simp [hs, hu]
      · rcases hv : u.getField "user_id" with _ | v
        · simp [hs, hu, hv]
        · exact absurd ⟨r, hres, hs, u, hu, v, hv⟩ h
    · simp [hs]

/-- A loop whose every step succeeds attempts every email and does not
fail. -/
theorem runLoop_all_ok (step : Nat → String → CUOut)
    (hstep : ∀ j em, stepOk (step j em)) :
    ∀ (l : List String) (i : Nat),
      (runLoop step l i).attempts = l ∧ (runLoop step l i).failed = false
  | [], _ => ⟨rfl, rfl⟩
  | e :: rest, i => by
    obtain ⟨r, h1, h2, u, hu, v, hv⟩ := hstep i e
    rw [runLoop_cons_succ step e rest i r u v h1 h2 hu hv]
    have ih := runLoop_all_ok step hstep rest (i + 1)
    exact ⟨by simpa using ih.1, by simpa using ih.2⟩

/-- A loop that succeeds on each email of a prefix and then hits a failing
step stops there, keeping exactly the prefix results. -/
theorem runLoop_prefix_fail (step : Nat → String → CUOut)
    (r : Nat → ProvisionResult) :
    ∀ (pre : List String) (i : Nat) (e0 : String) (post : List String),
      (∀ j (h : j < pre.length),
        stepOkWith (step (i + j) (pre.get ⟨j, h⟩)) (r (i + j))) →
      ¬ stepOk (step (i + pre.length) e0) →
      (runLoop step (pre ++ e0 :: post) i).results =
          (List.range pre.length).map (fun j => r (i + j)) ∧
      (runLoop step (pre ++ e0 :: post) i).attempts = pre ++ [e0] ∧
      (runLoop step (pre ++ e0 :: post) i).failed = true
  | [], i, e0, post, _, hfail => by
    have hfail' : ¬ stepOk (step i e0) := by simpa using hfail
    simp [runLoop_cons_fail step e0 post i hfail']
  | p :: pre, i, e0, post, hpre, hfail => by
    have h0 := hpre 0 (by simp)
    have h0' : stepOkWith (step i p) (r i) := by simpa using h0
    obtain ⟨h1, h2, u, hu, v, hv⟩ := h0'
    have hfail' : ¬ stepOk (step (i + 1 + pre.length) e0) := by
      have harith : i + (p :: pre).length = i + 1 + pre.length := by
        simp only [List.length_cons]
        omega
      rw [harith] at hfail
      exact hfail
    have hpre' : ∀ j (h : j < pre.length),
        stepOkWith (step (i + 1 + j) (pre.get ⟨j, h⟩)) (r (i + 1 + j)) := by
      intro j hj
      have hmem := hpre (j + 1) (by simpa using Nat.succ_lt_succ hj)
      have harith : i + (j + 1) = i + 1 + j := by omega
      rw [harith] at hmem
      simpa using hmem
    have ih := runLoop_prefix_fail step r pre (i + 1) e0 post hpre' hfail'
    rw [List.cons_append,
      runLoop_cons_succ step p (pre ++ e0 :: post) i (r i) u v h1 h2 hu hv]
    refine ⟨?_, ?_, ?_⟩
    · simp only [ih.1, List.length_cons, List.range_succ_eq_map, List.map_cons,
        List.map_map]
      refine congrArg₂ List.cons (by rw [Nat.add_zero]) ?_
      refine List.map_congr_left ?_
      intro j _
      simp only [Function.comp_apply]
      congr 1
      omega
    · simp [ih.2.1]
    · simp [ih.2.2]

/-- A create step answered with a non-201 status in live mode yields a
failure dict, not a success the loop can move past. -/
theorem create_user_fail201_not_stepOk (t e rid u : String) (net : UserNet)
    (h : net.createResp.status ≠ 201) :
    ¬ stepOk (create_user t e rid u false net) := by
  rintro ⟨r, hres, hsucc, -⟩
  simp only [create_user, Bool.false_eq_true, if_false, if_pos h] at hres
  cases hres
  simp at hsucc

/-- A token failing any pre-flight condition makes URL extraction fail. -/
theorem tokenBad_extract_error (token : String) (h : tokenBad token) :
    ∃ m, extract_api_url_from_token token = .error m := by
  rcases h with h | ⟨msg, hmsg⟩ | ⟨j, hj, haud⟩ | ⟨j, a, hj, haud, hmark⟩
  · have hdec : decode_jwt_payload token =
        .error "Error: Invalid JWT token format" := by
      simp only [decode_jwt_payload, if_pos h]
    exact ⟨"Error: Invalid JWT token format",
      by simp only [extract_api_url_from_token, hdec]⟩
  · exact ⟨msg, by simp only [extract_api_url_from_token, hmsg]⟩
  · cases j with
    | obj ms =>
      exact ⟨"Error: JWT token missing \x27aud\x27 claim",
        by simp only [extract_api_url_from_token, hj, haud]⟩
    | arr xs =>
      simp only [extract_api_url_from_token, hj]
      split
      · exact ⟨_, rfl⟩
      · exact ⟨_, rfl⟩
    | str s =>
      simp only [extract_api_url_from_token, hj]
      split
      · exact ⟨_, rfl⟩
      · exact ⟨_, rfl⟩
    | null => exact ⟨"TypeError: argument of type is not iterable",
        by simp only [extract_api_url_from_token, hj]⟩
    | bool b => exact ⟨"TypeError: argument of type is not iterable",
        by simp only [extract_api_url_from_token, hj]⟩
    | num raw => exact ⟨"TypeError: argument of type is not iterable",
        by simp only [extract_api_url_from_token, hj]⟩
  · have hobj : ∃ ms, j = .obj ms := by
      cases j with
      | obj ms => exact ⟨ms, rfl⟩
      | null => simp [Json.getField] at haud
      | bool b => simp [Json.getField] at haud
      | num raw => simp [Json.getField] at haud
      | str s => simp [Json.getField] at haud
      | arr xs => simp [Json.getField] at haud
    obtain ⟨ms, rfl⟩ := hobj
    cases a with
    | str s =>
      simp only [audHasMarker] at hmark
      exact ⟨"Error: aud claim does not contain \x27/api/v2/\x27: " ++ s,
        by simp only [extract_api_url_from_token, hj, haud, hmark,
          Bool.false_eq_true, if_false]⟩
    | null => exact ⟨"TypeError: argument of type is not iterable",
        by simp only [extract_api_url_from_token, hj, haud]⟩
    | bool b => exact ⟨"TypeError: argument of type is not iterable",
        by simp only [extract_api_url_from_token, hj, haud]⟩
    | num raw => exact ⟨"TypeError: argument of type is not iterable",
        by simp only [extract_api_url_from_token, hj, haud]⟩
    | arr xs => exact ⟨"TypeError: argument of type is not iterable",
        by simp only [extract_api_url_from_token, hj, haud]⟩
    | obj ms2 => exact ⟨"TypeError: argument of type is not iterable",
        by simp only [extract_api_url_from_token, hj, haud]⟩

/-- A save against an absent file or a valid-array file merges without a
warning. -/
theorem save_results_of_fileArr (R : List Json) (f0 : FileContent)
    (xs : List Json) (h : fileArr f0 = some xs) :
    save_results R f0 =
      { total := (xs ++ R).length, warned := false,
        file := some (.ok (Json.arr (xs ++ R))) } := by
  rcases f0 with _ | e
  · simp only [fileArr, Option.some.injEq] at h
    subst h
    simp [save_results]
  · rcases e with s | j
    · simp [fileArr] at h
    · cases j with
      | arr ys =>
        simp only [fileArr, Option.some.injEq] at h
        subst h
        simp [save_results]
      | null => simp [fileArr] at h
      | bool b => simp [fileArr] at h
      | num raw => simp [fileArr] at h
      | str s => simp [fileArr] at h
      | obj ms => simp [fileArr] at h

/-! ## Claim theorems -/

/-- C3: starting from an absent file or one holding a valid JSON array,
saving result list A and then result list B against the same path leaves a
single JSON array holding the prior contents, then A, then B, in order, of
length prior + A + B, and each save call returns the element count of the
array it wrote. -/
theorem save_results_appends_in_order (A B : List Json) (f0 : FileContent)
    (xs : List Json) (h : fileArr f0 = some xs) :
    (save_results A f0).total = xs.length + A.length ∧
    (save_results A f0).file = some (.ok (Json.arr (xs ++ A))) ∧
    (save_results B (save_results A f0).file).total =
      xs.length + A.length + B.length ∧
    (save_results B (save_results A f0).file).file =
      some (.ok (Json.arr (xs ++ A ++ B))) := by
  have h1 := save_results_of_fileArr A f0 xs h
  have h2 : fileArr (save_results A f0).file = some (xs ++ A) := by
    rw [h1]
    rfl
  have h3 := save_results_of_fileArr B (save_results A f0).file (xs ++ A) h2
  refine ⟨by rw [h1]; simp, by rw [h1], by rw [h3]; simp; omega, by rw [h3]⟩

/-- C3 witness: two concrete saves against an initially absent file. -/
theorem save_results_appends_in_order_witness :
    fileArr none = some [] ∧
    (save_results [Json.num "1"] none).total = 0 + 1 ∧
    (save_results [Json.num "2", Json.num "3"]
        (save_results [Json.num "1"] none).file).file =
      some (.ok (Json.arr ([] ++ [Json.num "1"] ++ [Json.num "2", Json.num "3"]))) :=
  ⟨rfl,
   (save_results_appends_in_order [Json.num "1"] [Json.num "2", Json.num "3"]
      none [] rfl).1,
   (save_results_appends_in_order [Json.num "1"] [Json.num "2", Json.num "3"]
      none [] rfl).2.2.2⟩

/-- C7: when the file exists but holds invalid JSON text or a valid JSON
value that is not an array, the save still succeeds: it warns, discards the
old content, and writes exactly the new results as a JSON array, returning
their count. -/
theorem save_results_overwrites_bad_existing (B : List Json) (f0 : FileContent)
    (h : badExisting f0) :
    save_results B f0 =
      { total := B.length, warned := true,
        file := some (.ok (Json.arr B)) } := by
  rcases h with ⟨s, rfl⟩ | ⟨j, rfl, hj⟩
  · simp [save_results]
  · cases j with
    | arr ys => simp [Json.asArr] at hj
    | null => simp [save_results]
    | bool b => simp [save_results]
    | num raw => simp [save_results]
    | str s => simp [save_results]
    | obj ms => simp [save_results]

/-- C7 witness: a concrete save over a file holding invalid JSON text. -/
theorem save_results_overwrites_bad_existing_witness :
    badExisting (some (.error "not json at all")) ∧
    save_results [Json.str "r"] (some (.error "not json at all")) =
      { total := 1, warned := true,
        file := some (.ok (Json.arr [Json.str "r"])) } :=
  ⟨Or.inl ⟨"not json at all", rfl⟩,
   save_results_overwrites_bad_existing [Json.str "r"]
     (some (.error "not json at all")) (Or.inl ⟨"not json at all", rfl⟩)⟩

/-- C6: in debug mode provisioning issues no network call, is independent
of the network oracle, and always returns a success with role_assigned
true whose synthetic user id is the provider tag auth0 with a bar, then
debug-, then the email with the at sign replaced by the -at- marker. -/
theorem debug_provision_deterministic_offline (t e rid u : String)
    (net net' : UserNet) :
    (create_user t e rid u true net).calls = [] ∧
    create_user t e rid u true net = create_user t e rid u true net' ∧
    ∃ mock, (create_user t e rid u true net).res =
        .ok { success := true, user := some mock,
              role_assigned := some true, debug_mode := some true } ∧
      mock.getField "user_id" =
        some (.str ("auth0|" ++ ("debug-" ++ pyReplace e "@" "-at-"))) := by
  refine ⟨rfl, rfl, ?_⟩
  refine ⟨_, rfl, ?_⟩
  rfl

/-- C8: a 201 create followed by a non-204 role assignment yields a
failure result carrying the error text, the role status code and the
created user object under user_created; the only requests issued are the
create and assign POSTs, so nothing is rolled back. -/
theorem role_failure_partial_state_surfaced (t e rid u uid : String)
    (net : UserNet)
    (h1 : net.createResp.status = 201)
    (h2 : net.createResp.json.getField "user_id" = some (.str uid))
    (h3 : net.roleResp.status ≠ 204) :
    create_user t e rid u false net =
      { res := .ok { success := false,
                     error := some ("Failed to assign role: " ++ net.roleResp.text),
                     user_created := some net.createResp.json,
                     status_code := some net.roleResp.status },
        calls := [Call.postUsers (u ++ "users") (userPayload e),
                  Call.postRoles (u ++ "users/" ++ uid ++ "/roles")
                    (rolePayload rid)] } := by
  simp only [create_user, Bool.false_eq_true, if_false, h1, h2, ne_eq,
    not_true_eq_false, if_false, if_pos h3]

/-- C8 witness: concrete 201 create and 500 role assignment. -/
theorem role_failure_partial_state_surfaced_witness :
    (201 : Nat) = 201 ∧ (500 : Nat) ≠ 204 ∧
    create_user "tk" "a@b.c" "rol_9" "https://x/api/v2/" false
        ⟨⟨201, "", Json.obj [("user_id", Json.str "auth0|abc")]⟩,
         ⟨500, "boom", Json.null⟩⟩ =
      { res := .ok { success := false,
                     error := some ("Failed to assign role: " ++ "boom"),
                     user_created := some (Json.obj [("user_id", Json.str "auth0|abc")]),
                     status_code := some 500 },
        calls := [Call.postUsers ("https://x/api/v2/" ++ "users")
                    (userPayload "a@b.c"),
                  Call.postRoles
                    ("https://x/api/v2/" ++ "users/" ++ "auth0|abc" ++ "/roles")
                    (rolePayload "rol_9")] } :=
  ⟨rfl, by decide,
   role_failure_partial_state_surfaced "tk" "a@b.c" "rol_9" "https://x/api/v2/"
     "auth0|abc"
     ⟨⟨201, "", Json.obj [("user_id", Json.str "auth0|abc")]⟩, ⟨500, "boom", Json.null⟩⟩
     rfl rfl (by decide)⟩

/-- C9: a token whose payload decodes to a JSON object whose aud member is
a string containing the API path marker makes URL extraction return that
string exactly, with no normalization. -/
theorem extract_returns_audience_verbatim (token : String) (j : Json)
    (a : String)
    (hdec : decode_jwt_payload token = .ok j)
    (haud : j.getField "aud" = some (.str a))
    (hmark : containsSubstr a "/api/v2/" = true) :
    extract_api_url_from_token token = .ok a := by
  have hobj : ∃ ms, j = .obj ms := by
    cases j with
    | obj ms => exact ⟨ms, rfl⟩
    | null => simp [Json.getField] at haud
    | bool b => simp [Json.getField] at haud
    | num raw => simp [Json.getField] at haud
    | str s => simp [Json.getField] at haud
    | arr xs => simp [Json.getField] at haud
  obtain ⟨ms, rfl⟩ := hobj
  simp only [extract_api_url_from_token, hdec, haud, hmark, if_true]

/-- C9 witness: a concrete token whose audience ends in a trailing slash,
returned verbatim. -/
theorem extract_returns_audience_verbatim_witness :
    decode_jwt_payload "h.eyJhdWQiOiJodHRwczovL3QvYXBpL3YyLyJ9.s" =
      .ok (Json.obj [("aud", Json.str "https://t/api/v2/")]) ∧
    extract_api_url_from_token "h.eyJhdWQiOiJodHRwczovL3QvYXBpL3YyLyJ9.s" =
      .ok "https://t/api/v2/" :=
  ⟨rfl,
   extract_returns_audience_verbatim "h.eyJhdWQiOiJodHRwczovL3QvYXBpL3YyLyJ9.s"
     (Json.obj [("aud", Json.str "https://t/api/v2/")]) "https://t/api/v2/"
     rfl rfl rfl⟩

/-- C4: the code decodes the middle segment with the standard base64
alphabet, so the segment eyI_IjoiPyJ9 — a legal base64url encoding of the
UTF-8 JSON object with one member mapping the key ? to the value ? — is
rejected with a padding error instead of yielding that object: the
underscore is discarded by the standard-alphabet decoder and the remaining
data length is wrong.  The last three conjuncts certify that the very same
segment, translated to the standard alphabet as urlsafe base64 decoding
would, does decode to that JSON object. -/
theorem decoder_rejects_base64url_segment :
    decode_jwt_payload "x.eyI_IjoiPyJ9.y" =
      .error "Error decoding JWT payload: Incorrect padding" ∧
    pyB64decode (pyReplace (pyReplace "eyI_IjoiPyJ9" "-" "+") "_" "/") =
      .ok [123, 34, 63, 34, 58, 34, 63, 34, 125] ∧
    utf8Decode [123, 34, 63, 34, 58, 34, 63, 34, 125] =
      some ("\x7b\"?\":\"?\"\x7d").data ∧
    jsonParse "\x7b\"?\":\"?\"\x7d" = some (Json.obj [("?", Json.str "?")]) :=
  ⟨rfl, rfl, rfl, rfl⟩

/-- A run whose pre-flight succeeds with an explicit role id reduces to the
loop over the generated emails followed by the flush-and-exit step. -/
theorem runMain_loop_eq (args : Args) (net : MainNet) (inputs : List String)
    (file0 : FileContent) (api_url rid : String)
    (hrole : args.role_id = some rid) (hrid : rid ≠ "")
    (hextract : extract_api_url_from_token args.token = .ok api_url)
    (htmpl : containsSubstr args.email placeholder = true)
    (hrange : args.start ≤ args.stop) :
    runMain args net inputs file0 =
      finishMain
        (runLoop
          (fun i e => create_user args.token e rid api_url args.debug (net.user i))
          (emailsFor args.email args.start args.stop) 0)
        [] file0 := by
  simp only [runMain, hextract, htmpl, Bool.true_eq_false, if_false]
  rw [if_neg (by omega : ¬ args.start > args.stop)]
  simp only [resolveRole, hrole, Option.getD_some]
  rw [if_pos hrid]

/-- C5: a token with the wrong segment count, an undecodable middle
segment, no audience member, or an audience lacking the API path marker
makes the run report an error and exit nonzero with no network call, no
save, and the output file untouched. -/
theorem preflight_token_failure_no_network (args : Args) (net : MainNet)
    (inputs : List String) (file0 : FileContent) (h : tokenBad args.token) :
    (runMain args net inputs file0).exitCode = 1 ∧
    (runMain args net inputs file0).errMsg.isSome = true ∧
    (runMain args net inputs file0).calls = [] ∧
    (runMain args net inputs file0).saves = [] ∧
    (runMain args net inputs file0).file = file0 := by
  obtain ⟨m, hm⟩ := tokenBad_extract_error args.token h
  refine ⟨?_, ?_, ?_, ?_, ?_⟩ <;> simp [runMain, hm, mainExitEarly]

/-- C5 witness: a one-segment token aborts a run before anything else. -/
theorem preflight_token_failure_no_network_witness :
    tokenBad "abc" ∧
    (runMain ⟨"abc", "u", 1, 1, some "r", false⟩ idleNet [] none).exitCode = 1 ∧
    (runMain ⟨"abc", "u", 1, 1, some "r", false⟩ idleNet [] none).calls = [] ∧
    (runMain ⟨"abc", "u", 1, 1, some "r", false⟩ idleNet [] none).errMsg =
      some "Error: Invalid JWT token format" := by
  have h : tokenBad "abc" := Or.inl (by decide)
  exact ⟨h,
    (preflight_token_failure_no_network ⟨"abc", "u", 1, 1, some "r", false⟩
      idleNet [] none h).1,
    (preflight_token_failure_no_network ⟨"abc", "u", 1, 1, some "r", false⟩
      idleNet [] none h).2.2.1,
    rfl⟩

/-- C2: for a template containing the placeholder and start ≤ end, the
batch schedule holds exactly end - start + 1 emails in ascending order,
the i-th being the template with the placeholder replaced by the decimal
rendering of start + i, and a loop whose every step succeeds attempts
exactly that schedule in order. -/
theorem batch_attempts_inclusive_ascending_range (template : String)
    (s e : Int)
    (htmpl : containsSubstr template placeholder = true) (hse : s ≤ e) :
    (emailsFor template s e).length = (e - s + 1).toNat ∧
    (∀ i (h : i < (emailsFor template s e).length),
      (emailsFor template s e).get ⟨i, h⟩ =
        pyReplace template placeholder (toString (s + (i : Int)))) ∧
    ∀ step : Nat → String → CUOut, (∀ j em, stepOk (step j em)) →
      (runLoop step (emailsFor template s e) 0).attempts =
        emailsFor template s e ∧
      (runLoop step (emailsFor template s e) 0).failed = false := by
  refine ⟨?_, ?_, ?_⟩
  · have h1 : (emailsFor template s e).length = (e + 1 - s).toNat := by
      simp only [emailsFor, List.length_map, List.length_range]
    rw [h1]
    congr 1
    ring
  · intro i h
    simp only [emailsFor, List.get_eq_getElem, List.getElem_map, List.getElem_range]
  · intro step hstep
    exact runLoop_all_ok step hstep (emailsFor template s e) 0

/-- C2 witness: the range 1 to 3 over a concrete template yields the
three expected emails in order, and an all-success loop attempts them
all. -/
theorem batch_attempts_inclusive_ascending_range_witness :
    containsSubstr "u\x7b$\x7d@x.com" placeholder = true ∧ (1 : Int) ≤ 3 ∧
    emailsFor "u\x7b$\x7d@x.com" 1 3 = ["u1@x.com", "u2@x.com", "u3@x.com"] ∧
    (emailsFor "u\x7b$\x7d@x.com" 1 3).length = ((3 : Int) - 1 + 1).toNat ∧
    (runLoop demoStep (emailsFor "u\x7b$\x7d@x.com" 1 3) 0).attempts =
      ["u1@x.com", "u2@x.com", "u3@x.com"] := by
  have hthm := batch_attempts_inclusive_ascending_range "u\x7b$\x7d@x.com" 1 3
    rfl (by decide)
  have hstep : ∀ j em, stepOk (demoStep j em) := fun j em =>
    ⟨_, rfl, rfl, _, rfl, _, rfl⟩
  refine ⟨rfl, by decide, rfl, hthm.1, ?_⟩
  rw [(hthm.2.2 demoStep hstep).1]
  rfl

/-- C10: when the very first provisioning attempt fails, the accumulator
is still empty, so the run exits nonzero without ever invoking the Result
Store: no save happens and the file — whatever it held, even invalid
JSON — is untouched. -/
theorem first_attempt_failure_skips_store (args : Args) (net : MainNet)
    (inputs : List String) (file0 : FileContent) (api_url rid : String)
    (e0 : String) (rest : List String)
    (hdebug : args.debug = false)
    (hrole : args.role_id = some rid) (hrid : rid ≠ "")
    (hextract : extract_api_url_from_token args.token = .ok api_url)
    (htmpl : containsSubstr args.email placeholder = true)
    (hrange : args.start ≤ args.stop)
    (hemails : emailsFor args.email args.start args.stop = e0 :: rest)
    (hfail : ¬ stepOk (create_user args.token e0 rid api_url false (net.user 0))) :
    (runMain args net inputs file0).exitCode = 1 ∧
    (runMain args net inputs file0).saves = [] ∧
    (runMain args net inputs file0).results = [] ∧
    (runMain args net inputs file0).file = file0 := by
  rw [runMain_loop_eq args net inputs file0 api_url rid hrole hrid hextract
    htmpl hrange, hemails]
  have hfail' : ¬ stepOk
      ((fun i e => create_user args.token e rid api_url args.debug (net.user i))
        0 e0) := by
    simpa [hdebug] using hfail
  rw [runLoop_cons_fail _ e0 rest 0 hfail']
  refine ⟨?_, ?_, ?_, ?_⟩ <;> simp [finishMain]

/-- C10 witness: a 409 on the very first create with a file holding
invalid JSON text: the run exits 1 and the file keeps that exact text. -/
theorem first_attempt_failure_skips_store_witness :
    (runMain ⟨goodTok, "u\x7b$\x7d@x.com", 1, 2, some "r1", false⟩ allFailNet []
        (some (.error "junk"))).exitCode = 1 ∧
    (runMain ⟨goodTok, "u\x7b$\x7d@x.com", 1, 2, some "r1", false⟩ allFailNet []
        (some (.error "junk"))).saves = [] ∧
    (runMain ⟨goodTok, "u\x7b$\x7d@x.com", 1, 2, some "r1", false⟩ allFailNet []
        (some (.error "junk"))).file = some (.error "junk") := by
  have hfail : ¬ stepOk (create_user goodTok "u1@x.com" "r1" "https://t/api/v2/"
      false (allFailNet.user 0)) :=
    create_user_fail201_not_stepOk goodTok "u1@x.com" "r1" "https://t/api/v2/"
      (allFailNet.user 0) (by decide)
  have h := first_attempt_failure_skips_store
    ⟨goodTok, "u\x7b$\x7d@x.com", 1, 2, some "r1", false⟩ allFailNet []
    (some (.error "junk")) "https://t/api/v2/" "r1" "u1@x.com" ["u2@x.com"]
    rfl rfl (by decide) rfl rfl (by decide) rfl hfail
  exact ⟨h.1, h.2.1, h.2.2.2⟩

/-- C1: after k earlier users provisioned successfully (k at least one), a
create step answered non-201 halts the run at once: only the first k plus
one emails are attempted, the store is invoked exactly once with exactly
the k earlier results, an initially absent output file ends as exactly
that array, and the exit code is nonzero. -/
theorem create_failure_halts_and_persists_prefix (args : Args) (net : MainNet)
    (inputs : List String) (api_url rid : String)
    (pre : List String) (e0 : String) (post : List String)
    (r : Nat → ProvisionResult) (k : Nat)
    (hdebug : args.debug = false)
    (hrole : args.role_id = some rid) (hrid : rid ≠ "")
    (hextract : extract_api_url_from_token args.token = .ok api_url)
    (htmpl : containsSubstr args.email placeholder = true)
    (hrange : args.start ≤ args.stop)
    (hemails : emailsFor args.email args.start args.stop = pre ++ e0 :: post)
    (hk : pre.length = k) (hk1 : 1 ≤ k)
    (hsucc : ∀ j (h : j < pre.length),
      stepOkWith (create_user args.token (pre.get ⟨j, h⟩) rid api_url false
        (net.user j)) (r j))
    (hfail : (net.user k).createResp.status ≠ 201) :
    (runMain args net inputs none).exitCode = 1 ∧
    (runMain args net inputs none).attempts = pre ++ [e0] ∧
    (runMain args net inputs none).results = (List.range k).map r ∧
    (runMain args net inputs none).saves =
      [((List.range k).map r).map ProvisionResult.toJson] ∧
    (runMain args net inputs none).file =
      some (.ok (Json.arr (((List.range k).map r).map ProvisionResult.toJson))) := by
  have hpre0 : ∀ j (h : j < pre.length),
      stepOkWith
        ((fun i e => create_user args.token e rid api_url args.debug (net.user i))
          (0 + j) (pre.get ⟨j, h⟩)) (r (0 + j)) := by
    intro j hj
    simpa [hdebug, Nat.zero_add] using hsucc j hj
  have hfail0 : ¬ stepOk
      ((fun i e => create_user args.token e rid api_url args.debug (net.user i))
        (0 + pre.length) e0) := by
    have hn := create_user_fail201_not_stepOk args.token e0 rid api_url
      (net.user k) hfail
    simpa [hdebug, Nat.zero_add, hk] using hn
  have hloop := runLoop_prefix_fail
    (fun i e => create_user args.token e rid api_url args.debug (net.user i))
    r pre 0 e0 post hpre0 hfail0
  have hres : (runLoop
      (fun i e => create_user args.token e rid api_url args.debug (net.user i))
      (pre ++ e0 :: post) 0).results = (List.range k).map r := by
    rw [hloop.1]
    subst hk
    refine List.map_congr_left ?_
    intro j _
    simp
  have hne : ((List.range k).map r).isEmpty = false := by
    have hlen : ((List.range k).map r).length = k := by simp
    cases hcase : (List.range k).map r with
    | nil => rw [hcase] at hlen; simp at hlen; omega
    | cons a l => rfl
  rw [runMain_loop_eq args net inputs none api_url rid hrole hrid hextract
    htmpl hrange, hemails]
  refine ⟨?_, ?_, ?_, ?_, ?_⟩ <;>
    simp [finishMain, hloop.2.2, hloop.2.1, hres, hne, save_results]

/-- C1 witness: a two-user batch whose second create is refused persists
exactly the first result and exits 1. -/
theorem create_failure_halts_and_persists_prefix_witness :
    (twoUserNet.user 1).createResp.status ≠ 201 ∧
    (runMain ⟨goodTok, "u\x7b$\x7d@x.com", 1, 2, some "r1", false⟩ twoUserNet []
        none).exitCode = 1 ∧
    (runMain ⟨goodTok, "u\x7b$\x7d@x.com", 1, 2, some "r1", false⟩ twoUserNet []
        none).attempts = ["u1@x.com", "u2@x.com"] ∧
    (runMain ⟨goodTok, "u\x7b$\x7d@x.com", 1, 2, some "r1", false⟩ twoUserNet []
        none).saves = [[ProvisionResult.toJson okResult]] ∧
    (runMain ⟨goodTok, "u\x7b$\x7d@x.com", 1, 2, some "r1", false⟩ twoUserNet []
        none).file =
      some (.ok (Json.arr [ProvisionResult.toJson okResult])) := by
  have hsucc : ∀ j (h : j < (["u1@x.com"] : List String).length),
      stepOkWith (create_user goodTok ((["u1@x.com"] : List String).get ⟨j, h⟩)
        "r1" "https://t/api/v2/" false (twoUserNet.user j))
        ((fun _ => okResult) j) := by
    intro j hj
    have hj0 : j = 0 := by
      simp only [List.length_singleton, Nat.lt_one_iff] at hj
      exact hj
    subst hj0
    exact ⟨rfl, rfl, Json.obj [("user_id", Json.str "u0")], rfl,
      Json.str "u0", rfl⟩
  have h := create_failure_halts_and_persists_prefix
    ⟨goodTok, "u\x7b$\x7d@x.com", 1, 2, some "r1", false⟩ twoUserNet []
    "https://t/api/v2/" "r1" ["u1@x.com"] "u2@x.com" [] (fun _ => okResult) 1
    rfl rfl (by decide) rfl rfl (by decide) rfl rfl (by decide) hsucc (by decide)
  exact ⟨by decide, h.1, h.2.1, h.2.2.2.1, h.2.2.2.2⟩

end Auth0Script
